import Mathlib

/-!
Shallow embedding of the ride_now repository (src/app.js).

The file contains two programs: a React front-end component (App) and an
Express/Socket.IO back-end.  The embedding below models:

* the Ride record (mongoose rideSchema, lines 212-224);
* the ride-request handler POST /api/rides/request (lines 264-329),
  split into its synchronous part (validation + ride creation,
  lines 266-279, `requestRide`) and the setTimeout match callback
  (lines 283-323, `completeMatch` / `applyMatch`);
* the fare and ETA computation (lines 289-290, `fareAmount`,
  `etaMinutes`, `etaString`), with Math.random() modelled as a rational
  parameter r with 0 <= r < 1 and toFixed(2)/parseFloat modelled as
  rounding to two decimals over the rationals;
* the ride-status query GET /api/rides/:id (lines 332-343,
  `getRideStatus`);
* the Socket.IO room membership and targeted emit (joinRideRoom /
  io.to(riderId).emit, lines 301-310 and 351-354), whose semantics live
  in the socket.io library and are therefore modelled from the spec
  (`Registry`, `join`, `leave`, `channelsFor`, `emitRideUpdate`);
* the front-end handleRequestRide (lines 15-54, `handleRequestRideStart`
  and `handleRequestRideSuccess`).

Timestamps are natural numbers; mongoose ObjectId generation is modelled
as a fresh counter (see `BackendState`); locale time-string formatting of
timestamps is abstracted to the numeric timestamp itself.
-/

/-- Ride status enumeration of the mongoose rideSchema
(enum at line 217 of src/app.js). -/
inductive RideStatus where
  | pending
  | searching
  | accepted
  | on_the_way
  | completed
  | cancelled
deriving DecidableEq

/-- One ride document (rideSchema, lines 212-224 of src/app.js).
Fields absent until matched are Option-valued. -/
structure Ride where
  id : Nat
  riderId : String
  driverId : Option Nat
  pickupLocation : String
  destination : String
  status : RideStatus
  fare : Option ℚ
  estimatedArrivalTime : Option String
  pickupTime : Option Nat
  createdAt : Nat
  updatedAt : Nat
deriving DecidableEq

/-- Modelled from the spec: a freshly generated unique ride identifier
(mongoose ObjectId generation happens in library code, not in src/); it is
modelled as the counter nextRideId, so every created ride gets an
identifier no previously stored ride has.  rides is the persisted store. -/
structure BackendState where
  nextRideId : Nat
  rides : List Ride
deriving DecidableEq

/-- Initial backend state: empty store. -/
def initState : BackendState := { nextRideId := 0, rides := [] }

/-- JavaScript falsiness of a request-body string field: the field is
missing (undefined) or the empty string (line 268 of src/app.js). -/
def isFalsy : Option String → Bool
  | none => true
  | some s => s.isEmpty

/-- Extract the string of a present field. -/
def orEmpty : Option String → String
  | none => ""
  | some s => s

/-- toFixed(2) followed by parseFloat (line 289 of src/app.js): round a
positive rational to two decimal places. -/
def toFixed2 (q : ℚ) : ℚ := ((⌊q * 100 + 1 / 2⌋ : ℤ) : ℚ) / 100

/-- The fare computed at line 289 of src/app.js:
(Math.random() * 20 + 10).toFixed(2), then parseFloat; r stands for the
value returned by Math.random(). -/
def fareAmount (r : ℚ) : ℚ := toFixed2 (r * 20 + 10)

/-- The ETA minute count computed at line 290 of src/app.js:
Math.floor(Math.random() * 5) + 2; r stands for Math.random(). -/
def etaMinutes (r : ℚ) : ℤ := ⌊r * 5⌋ + 2

/-- The ETA string of line 290: a template literal appending " minutes". -/
def etaString (r : ℚ) : String := toString (etaMinutes r) ++ " minutes"

/-- The ride mutation performed inside the setTimeout callback
(lines 292-298 of src/app.js): unconditionally assigns driverId, fare,
estimatedArrivalTime, status := accepted and pickupTime := now.  The code
performs no status check and does not touch updatedAt. -/
def applyMatch (ride : Ride) (driverId : Nat) (fare : ℚ) (eta : String)
    (now : Nat) : Ride :=
  { ride with
    driverId := some driverId
    fare := some fare
    estimatedArrivalTime := some eta
    status := RideStatus.accepted
    pickupTime := some now }

/-- Result of the synchronous part of POST /api/rides/request: either the
400 response of line 269, or a saved ride with the match callback
scheduled (no HTTP response has been sent yet in this branch). -/
inductive ReqResult where
  | invalid (httpCode : Nat) (message : String)
  | scheduled (ride : Ride)
deriving DecidableEq

/-- The ride document built by new Ride({riderId, pickupLocation,
destination, status}) at lines 273-278 of src/app.js: status searching,
fresh identifier, schema defaults for createdAt and updatedAt. -/
def newRide (st : BackendState) (now : Nat)
    (riderId pickupLocation destination : Option String) : Ride :=
  { id := st.nextRideId
    riderId := orEmpty riderId
    driverId := none
    pickupLocation := orEmpty pickupLocation
    destination := orEmpty destination
    status := RideStatus.searching
    fare := none
    estimatedArrivalTime := none
    pickupTime := none
    createdAt := now
    updatedAt := now }

/-- The synchronous part of the POST /api/rides/request handler
(lines 266-279 of src/app.js): validate the three body fields, create and
save a ride with status searching, and schedule the match callback. -/
def requestRide (st : BackendState) (now : Nat)
    (riderId pickupLocation destination : Option String) :
    BackendState × ReqResult :=
  if isFalsy riderId || isFalsy pickupLocation || isFalsy destination then
    (st, ReqResult.invalid 400 ("Missing required ride details."))
  else
    ({ nextRideId := st.nextRideId + 1
       rides := st.rides ++ [newRide st now riderId pickupLocation destination] },
      ReqResult.scheduled (newRide st now riderId pickupLocation destination))

/-- The HTTP response that the request handler sends synchronously, before
the setTimeout callback runs: only the 400 error path sends one; the valid
path sends nothing until the callback fires (the res.status(200) call sits
inside the setTimeout at lines 312-321). -/
def syncResponse : ReqResult → Option (Nat × String)
  | ReqResult.invalid code msg => some (code, msg)
  | ReqResult.scheduled _ => none

/-- The rideUpdate event payload emitted at lines 301-310 of src/app.js. -/
structure RideUpdateEvent where
  rideId : Nat
  status : RideStatus
  driverName : String
  driverVehicle : String
  estimatedArrivalTime : String
  fare : ℚ
  pickupTime : Nat
  message : String
deriving DecidableEq

/-- The body of the res.status(200).json response sent inside the
setTimeout callback (lines 312-321 of src/app.js). -/
structure MatchResponse where
  httpCode : Nat
  message : String
  rideId : Nat
  status : RideStatus
  driverName : String
  driverVehicle : String
  estimatedArrivalTime : String
  fare : ℚ
  pickupTime : Nat
deriving DecidableEq

/-- Everything the setTimeout callback produces: the updated store, the
mutated ride, the room the event is addressed to, the event payload, and
the (late) HTTP response. -/
structure MatchOutput where
  st : BackendState
  ride : Ride
  eventRoom : String
  event : RideUpdateEvent
  response : MatchResponse
deriving DecidableEq

/-- The mock driver of lines 284-288 of src/app.js. -/
def mockDriverName : String := "Alice Smith"

/-- The mock driver vehicle of line 287 of src/app.js. -/
def mockDriverVehicle : String := "Toyota Camry (ABC-123)"

/-- The setTimeout callback of lines 283-323 of src/app.js: compute the
random fare and ETA, mutate the ride via applyMatch, save it, emit the
rideUpdate event to the room named by the rider identity, and send the
HTTP response (status field is newRide.status, already accepted here).
r1 and r2 stand for the two Math.random() values, driverId for the mock
ObjectId, now for the callback time. -/
def completeMatch (st : BackendState) (ride : Ride) (r1 r2 : ℚ)
    (driverId : Nat) (now : Nat) : MatchOutput :=
  let fare := fareAmount r1
  let eta := etaString r2
  let matched := applyMatch ride driverId fare eta now
  { st := { nextRideId := st.nextRideId
            rides := st.rides.map (fun r => if r.id = matched.id then matched else r) }
    ride := matched
    eventRoom := ride.riderId
    event :=
      { rideId := matched.id
        status := matched.status
        driverName := mockDriverName
        driverVehicle := mockDriverVehicle
        estimatedArrivalTime := eta
        fare := fare
        pickupTime := now
        message := "Driver found!" }
    response :=
      { httpCode := 200
        message := "Ride request received and driver searching initiated."
        rideId := matched.id
        status := matched.status
        driverName := mockDriverName
        driverVehicle := mockDriverVehicle
        estimatedArrivalTime := eta
        fare := fare
        pickupTime := now } }

/-- Result of GET /api/rides/:id (lines 332-343 of src/app.js). -/
inductive StatusResult where
  | notFound
  | found (ride : Ride)
deriving DecidableEq

/-- The GET /api/rides/:id handler: look the ride up by identifier;
404 when absent, 200 with the full record when present. -/
def getRideStatus (st : BackendState) (rid : Nat) : StatusResult :=
  match st.rides.find? (fun r => r.id == rid) with
  | some r => StatusResult.found r
  | none => StatusResult.notFound

/-- Modelled from the spec: the Subscription Registry, i.e. the Socket.IO
room-membership state behind socket.join / io.to(room).emit; the library
code is not in src/, so join, leave (disconnect) and channelsFor follow
the operations of the spec.  memberships is the list of
(subscriberId, channel) pairs currently joined. -/
structure Registry where
  memberships : List (String × Nat)
deriving DecidableEq

/-- Modelled from the spec: join(subscriberId, channel) is idempotent and
adds the channel to the subscriber's channel set (socket.join(userId),
line 352 of src/app.js). -/
def join (reg : Registry) (subscriberId : String) (ch : Nat) : Registry :=
  if (subscriberId, ch) ∈ reg.memberships then reg
  else { memberships := reg.memberships ++ [(subscriberId, ch)] }

/-- Modelled from the spec: leave(channel), triggered by disconnect,
removes the channel from whichever subscriber sets contain it. -/
def leave (reg : Registry) (ch : Nat) : Registry :=
  { memberships := reg.memberships.filter (fun m => m.2 != ch) }

/-- Modelled from the spec: channelsFor(subscriberId), the current set of
channels joined under that identity. -/
def channelsFor (reg : Registry) (subscriberId : String) : List Nat :=
  (reg.memberships.filter (fun m => m.1 == subscriberId)).map (fun m => m.2)

/-- Modelled from the spec: io.to(room).emit delivers the match event to
every channel currently joined under the addressed room; the returned list
pairs each receiving channel with the payload it receives. -/
def emitRideUpdate (reg : Registry) (out : MatchOutput) :
    List (Nat × RideUpdateEvent) :=
  (channelsFor reg out.eventRoom).map (fun ch => (ch, out.event))

/-- The mock ride details of the front-end (lines 36-43 of src/app.js);
t stands for new Date().toLocaleTimeString(). -/
structure RideDetails where
  driverName : String
  driverVehicle : String
  estimatedArrivalTime : String
  fare : String
  pickupTime : String
  status : String
deriving DecidableEq

/-- The mockRideData object of lines 36-43 of src/app.js. -/
def mockRideData (t : String) : RideDetails :=
  { driverName := "Alice Smith"
    driverVehicle := "Toyota Camry (ABC-123)"
    estimatedArrivalTime := "3 minutes"
    fare := "$15.50"
    pickupTime := t
    status := "Driver on the way" }

/-- The React state of the App component (lines 6-12 of src/app.js). -/
structure AppState where
  pickupLocation : String
  destination : String
  isRequesting : Bool
  driverFound : Bool
  rideDetails : Option RideDetails
  error : String
deriving DecidableEq

/-- The synchronous part of handleRequestRide (lines 15-27 of
src/app.js): on empty pickup or destination set the error message and
return; otherwise clear the error and enter the requesting state. -/
def handleRequestRideStart (s : AppState) : AppState :=
  if s.pickupLocation.isEmpty || s.destination.isEmpty then
    { s with error := "Please enter both pickup location and destination." }
  else
    { s with
      error := ""
      isRequesting := true
      driverFound := false
      rideDetails := none }

/-- The post-delay part of handleRequestRide (lines 33-53 of src/app.js),
run only when validation passed: store the mock ride data, mark the driver
found, and clear isRequesting. -/
def handleRequestRideSuccess (s : AppState) (t : String) : AppState :=
  { s with
    rideDetails := some (mockRideData t)
    driverFound := true
    isRequesting := false }

/-! ## Concrete fixtures used by counterexamples and witnesses -/

/-- A ride already matched (status accepted), as left by the callback. -/
def rideMatched : Ride :=
  { id := 1
    riderId := "u1"
    driverId := some 1
    pickupLocation := "A"
    destination := "B"
    status := RideStatus.accepted
    fare := some 12
    estimatedArrivalTime := some ("3 minutes")
    pickupTime := some 5
    createdAt := 0
    updatedAt := 0 }

/-- A ride freshly created (status searching), createdAt = updatedAt = 7. -/
def rideSearching : Ride :=
  { id := 3
    riderId := "u3"
    driverId := none
    pickupLocation := "A"
    destination := "B"
    status := RideStatus.searching
    fare := none
    estimatedArrivalTime := none
    pickupTime := none
    createdAt := 7
    updatedAt := 7 }

/-- Store invariant: every persisted ride's identifier is below the
identifier counter. -/
def idsBelow (st : BackendState) : Prop :=
  ∀ r ∈ st.rides, r.id < st.nextRideId

/-- A store holding exactly rideMatched (identifier 1). -/
def stOne : BackendState := { nextRideId := 2, rides := [rideMatched] }

/-- A registry where rider u3 has two channels joined, 1 and 2. -/
def regTwo : Registry := join (join (Registry.mk []) ("u3") 1) ("u3") 2

/-- The concrete valid request of end-to-end scenario 1. -/
def c1Run : BackendState × ReqResult :=
  requestRide initState 0 (some ("u1")) (some ("A")) (some ("B"))

/-- The ride created by that request. -/
def c1Ride : Ride := newRide initState 0 (some ("u1")) (some ("A")) (some ("B"))

/-- A second concrete valid request, from rider u9. -/
def c9Run : BackendState × ReqResult :=
  requestRide initState 0 (some ("u9")) (some ("A")) (some ("B"))

/-- The ride created by the u9 request. -/
def c9Ride : Ride := newRide initState 0 (some ("u9")) (some ("A")) (some ("B"))

/-! ## Helper lemmas -/

theorem toFixed2_bounds (x : ℚ) (h1 : 10 ≤ x) (h2 : x < 30) :
    10 ≤ toFixed2 x ∧ toFixed2 x ≤ 30 := by
  unfold toFixed2
  have hf1 : (1000 : ℤ) ≤ ⌊x * 100 + 1 / 2⌋ := by
    apply Int.le_floor.mpr
    push_cast
    linarith
  have hf2 : ⌊x * 100 + 1 / 2⌋ < 3001 := by
    apply Int.floor_lt.mpr
    push_cast
    linarith
  have hq1 : (1000 : ℚ) ≤ ((⌊x * 100 + 1 / 2⌋ : ℤ) : ℚ) := by exact_mod_cast hf1
  have hq2 : ((⌊x * 100 + 1 / 2⌋ : ℤ) : ℚ) ≤ 3000 := by
    exact_mod_cast (by omega : ⌊x * 100 + 1 / 2⌋ ≤ 3000)
  constructor <;> linarith

theorem etaMinutes_bounds (r : ℚ) (h0 : 0 ≤ r) (h1 : r < 1) :
    2 ≤ etaMinutes r ∧ etaMinutes r ≤ 7 := by
  unfold etaMinutes
  have h2 : (0 : ℤ) ≤ ⌊r * 5⌋ := Int.le_floor.mpr (by push_cast; linarith)
  have h3 : ⌊r * 5⌋ < 5 := Int.floor_lt.mpr (by push_cast; linarith)
  omega

/-! ## Claims -/

/-- C3: for every match produced by the reference Matching Provider
(Math.random() values r1, r2 in the interval from 0 inclusive to 1
exclusive), the fare stored on the ride lies in the closed interval from
10.00 to 30.00 and the ETA is a whole number of minutes in the closed
interval from 2 to 7. -/
theorem C3_fare_eta_bounds (st : BackendState) (ride : Ride) (r1 r2 : ℚ)
    (d n : Nat) (h10 : 0 ≤ r1) (h11 : r1 < 1) (h20 : 0 ≤ r2) (h21 : r2 < 1) :
    (completeMatch st ride r1 r2 d n).ride.fare = some (fareAmount r1) ∧
    10 ≤ fareAmount r1 ∧ fareAmount r1 ≤ 30 ∧
    (completeMatch st ride r1 r2 d n).ride.estimatedArrivalTime =
      some (etaString r2) ∧
    2 ≤ etaMinutes r2 ∧ etaMinutes r2 ≤ 7 := by
  have hb := toFixed2_bounds (r1 * 20 + 10) (by linarith) (by linarith)
  have he := etaMinutes_bounds r2 h20 h21
  exact ⟨rfl, hb.1, hb.2, rfl, he.1, he.2⟩

/-- Witness for C3 at the concrete random draws r1 = r2 = 1/2. -/
theorem C3_fare_eta_bounds_witness :
    (0 : ℚ) ≤ 1 / 2 ∧ (1 / 2 : ℚ) < 1 ∧
    (10 ≤ fareAmount (1 / 2) ∧ fareAmount (1 / 2) ≤ 30 ∧
      2 ≤ etaMinutes (1 / 2) ∧ etaMinutes (1 / 2) ≤ 7) := by
  have h := C3_fare_eta_bounds initState rideSearching (1 / 2) (1 / 2) 9 3000
    (by norm_num) (by norm_num) (by norm_num) (by norm_num)
  exact ⟨by norm_num, by norm_num, h.2.1, h.2.2.1, h.2.2.2.2.1, h.2.2.2.2.2⟩

/-- C2 counterexample: the claim says applying the match to a ride whose
status is not searching fails with InvalidTransition; in the code the
setTimeout callback performs the mutation with no status check, so on a
ride already in accepted it succeeds and overwrites driverId and fare. -/
theorem C2_counterexample :
    rideMatched.status ≠ RideStatus.searching ∧
    (applyMatch rideMatched 2 15 ("4 minutes") 9).driverId = some 2 ∧
    (applyMatch rideMatched 2 15 ("4 minutes") 9).fare = some 15 ∧
    (applyMatch rideMatched 2 15 ("4 minutes") 9).status =
      RideStatus.accepted := by
  exact ⟨by decide, rfl, rfl, rfl⟩

/-- C2 amended: the match mutation of lines 292-298 is unconditional — it
never checks the ride's status and cannot fail with InvalidTransition;
applied to a ride in any status it sets status accepted and overwrites
driverId, fare, estimatedArrivalTime and pickupTime, and a second
application to the same ride overwrites them again. -/
theorem C2_applyMatch_unconditional (r : Ride) (d1 : Nat) (f1 : ℚ)
    (e1 : String) (t1 : Nat) (d2 : Nat) (f2 : ℚ) (e2 : String) (t2 : Nat) :
    (applyMatch r d1 f1 e1 t1).status = RideStatus.accepted ∧
    (applyMatch r d1 f1 e1 t1).driverId = some d1 ∧
    (applyMatch (applyMatch r d1 f1 e1 t1) d2 f2 e2 t2).driverId = some d2 ∧
    (applyMatch (applyMatch r d1 f1 e1 t1) d2 f2 e2 t2).fare = some f2 ∧
    (applyMatch (applyMatch r d1 f1 e1 t1) d2 f2 e2 t2).estimatedArrivalTime =
      some e2 ∧
    (applyMatch (applyMatch r d1 f1 e1 t1) d2 f2 e2 t2).pickupTime = some t2 ∧
    (applyMatch (applyMatch r d1 f1 e1 t1) d2 f2 e2 t2).status =
      RideStatus.accepted := by
  exact ⟨rfl, rfl, rfl, rfl, rfl, rfl, rfl⟩

/-- C4 counterexample: the claim says a successful match sets updatedAt to
the current time; the mutation of lines 292-298 never assigns updatedAt,
so a ride created (and last updated) at time 7 and matched at time 100
still carries updatedAt = 7. -/
theorem C4_counterexample :
    rideSearching.status = RideStatus.searching ∧
    (applyMatch rideSearching 2 15 ("3 minutes") 100).updatedAt = 7 ∧
    (applyMatch rideSearching 2 15 ("3 minutes") 100).updatedAt ≠ 100 := by
  exact ⟨rfl, rfl, by decide⟩

/-- C4 amended: when the match is applied to a ride in searching, the one
mutation sets driverId, fare, estimatedArrivalTime, pickupTime = now and
status = accepted; every other field — riderId, pickupLocation,
destination, createdAt, the identifier, and also updatedAt (which the
claim said would be refreshed) — keeps its previous value. -/
theorem C4_applyMatch_frame (r : Ride) (d : Nat) (f : ℚ) (e : String)
    (now : Nat) (h : r.status = RideStatus.searching) :
    (applyMatch r d f e now).driverId = some d ∧
    (applyMatch r d f e now).fare = some f ∧
    (applyMatch r d f e now).estimatedArrivalTime = some e ∧
    (applyMatch r d f e now).pickupTime = some now ∧
    (applyMatch r d f e now).status = RideStatus.accepted ∧
    (applyMatch r d f e now).riderId = r.riderId ∧
    (applyMatch r d f e now).pickupLocation = r.pickupLocation ∧
    (applyMatch r d f e now).destination = r.destination ∧
    (applyMatch r d f e now).createdAt = r.createdAt ∧
    (applyMatch r d f e now).updatedAt = r.updatedAt ∧
    (applyMatch r d f e now).id = r.id := by
  exact ⟨rfl, rfl, rfl, rfl, rfl, rfl, rfl, rfl, rfl, rfl, rfl⟩

/-- Witness for C4 at the concrete searching ride. -/
theorem C4_applyMatch_frame_witness :
    rideSearching.status = RideStatus.searching ∧
    ((applyMatch rideSearching 2 15 ("3 minutes") 100).driverId = some 2 ∧
      (applyMatch rideSearching 2 15 ("3 minutes") 100).updatedAt =
        rideSearching.updatedAt) := by
  have h := C4_applyMatch_frame rideSearching 2 15 ("3 minutes") 100 rfl
  exact ⟨rfl, h.1, h.2.2.2.2.2.2.2.2.2.1⟩

/-- C10: in the front-end App component, when pickupLocation or
destination is empty, handleRequestRide sets the error message and returns
without changing any other state: isRequesting, driverFound and
rideDetails keep the values they had before the call. -/
theorem C10_invalid_input_frame (s : AppState)
    (h : (s.pickupLocation.isEmpty || s.destination.isEmpty) = true) :
    (handleRequestRideStart s).error =
      "Please enter both pickup location and destination." ∧
    (handleRequestRideStart s).isRequesting = s.isRequesting ∧
    (handleRequestRideStart s).driverFound = s.driverFound ∧
    (handleRequestRideStart s).rideDetails = s.rideDetails ∧
    (handleRequestRideStart s).pickupLocation = s.pickupLocation ∧
    (handleRequestRideStart s).destination = s.destination := by
  unfold handleRequestRideStart
  rw [if_pos h]
  exact ⟨rfl, rfl, rfl, rfl, rfl, rfl⟩

/-- Witness for C10 at a concrete state with empty pickup location. -/
theorem C10_invalid_input_frame_witness :
    ((AppState.mk "" ("B") true false none "").pickupLocation.isEmpty ||
      (AppState.mk "" ("B") true false none "").destination.isEmpty) = true ∧
    ((handleRequestRideStart (AppState.mk "" ("B") true false none "")).error =
      "Please enter both pickup location and destination." ∧
    (handleRequestRideStart
        (AppState.mk "" ("B") true false none "")).isRequesting = true) := by
  have h := C10_invalid_input_frame (AppState.mk "" ("B") true false none "")
    (by decide)
  exact ⟨by decide, h.1, h.2.1⟩

theorem requestRide_scheduled_inv (st : BackendState) (now : Nat)
    (a b c : Option String) (st2 : BackendState) (ride : Ride)
    (h : requestRide st now a b c = (st2, ReqResult.scheduled ride)) :
    ride = newRide st now a b c ∧
    st2 = { nextRideId := st.nextRideId + 1, rides := st.rides ++ [ride] } := by
  unfold requestRide at h
  split at h
  · rw [Prod.mk.injEq] at h
    exact absurd h.2 (by simp)
  · rw [Prod.mk.injEq] at h
    obtain ⟨hA, hB⟩ := h
    injection hB with hB
    subst hB
    exact ⟨rfl, hA.symm⟩

/-- C1: the spec claims the request-ride call returns its acknowledgment
with status searching immediately, before the Matching Provider completes,
and that the synchronous response is not produced inside the
match-completion callback.  The code does the opposite: the valid path of
the handler sends no synchronous response at all (syncResponse = none) and
the only res.status(200) call sits inside the setTimeout match callback,
after applyMatch has already set the status to accepted — so the response
that is eventually sent carries status accepted, not searching. -/
theorem C1_response_inside_match_callback :
    c1Run.2 = ReqResult.scheduled c1Ride ∧
    syncResponse c1Run.2 = none ∧
    c1Ride.status = RideStatus.searching ∧
    (completeMatch c1Run.1 c1Ride (1 / 2) (1 / 2) 7 3000).response.httpCode =
      200 ∧
    (completeMatch c1Run.1 c1Ride (1 / 2) (1 / 2) 7 3000).response.status =
      RideStatus.accepted ∧
    RideStatus.accepted ≠ RideStatus.searching := by
  exact ⟨rfl, rfl, rfl, rfl, rfl, by decide⟩

/-- C5: when any of riderId, pickupLocation or destination is missing or
empty, the request handler fails synchronously with the 400 response, the
store is unchanged (no ride created), and no match callback is scheduled,
so no rideUpdate event is ever delivered for that request. -/
theorem C5_invalid_request (st : BackendState) (now : Nat)
    (riderId pickupLocation destination : Option String)
    (h : (isFalsy riderId || isFalsy pickupLocation || isFalsy destination) =
      true) :
    requestRide st now riderId pickupLocation destination =
      (st, ReqResult.invalid 400 ("Missing required ride details.")) ∧
    (requestRide st now riderId pickupLocation destination).1.rides =
      st.rides ∧
    syncResponse (requestRide st now riderId pickupLocation destination).2 =
      some (400, ("Missing required ride details.")) ∧
    ∀ ride, (requestRide st now riderId pickupLocation destination).2 ≠
      ReqResult.scheduled ride := by
  unfold requestRide
  rw [if_pos h]
  exact ⟨rfl, rfl, rfl, fun ride hcon => nomatch hcon⟩

/-- Witness for C5: a request whose pickupLocation is the empty string. -/
theorem C5_invalid_request_witness :
    (isFalsy (some ("u1")) || isFalsy (some ("")) || isFalsy (some ("B"))) =
      true ∧
    requestRide initState 0 (some ("u1")) (some ("")) (some ("B")) =
      (initState, ReqResult.invalid 400 ("Missing required ride details.")) := by
  have h := C5_invalid_request initState 0 (some ("u1")) (some ("")) (some ("B"))
    (by decide)
  exact ⟨by decide, h.1⟩

/-- C6: for all valid inputs, create yields a new ride in searching with a
freshly generated identifier (colliding with no stored ride) and the
creation timestamp, and a second create performed on the resulting state
never yields the same identifier. -/
theorem C6_create_fresh (st : BackendState) (now : Nat)
    (a b c : Option String)
    (hv : (isFalsy a || isFalsy b || isFalsy c) = false)
    (hids : idsBelow st) :
    requestRide st now a b c =
      ({ nextRideId := st.nextRideId + 1
         rides := st.rides ++ [newRide st now a b c] },
        ReqResult.scheduled (newRide st now a b c)) ∧
    (newRide st now a b c).status = RideStatus.searching ∧
    (newRide st now a b c).createdAt = now ∧
    (∀ r ∈ st.rides, r.id ≠ (newRide st now a b c).id) ∧
    idsBelow (requestRide st now a b c).1 ∧
    (∀ now2 a2 b2 c2 st3 ride2,
      requestRide (requestRide st now a b c).1 now2 a2 b2 c2 =
        (st3, ReqResult.scheduled ride2) →
      ride2.id ≠ (newRide st now a b c).id) := by
  have hcond : ¬((isFalsy a || isFalsy b || isFalsy c) = true) := by
    simp [hv]
  have hreq : requestRide st now a b c =
      ({ nextRideId := st.nextRideId + 1
         rides := st.rides ++ [newRide st now a b c] },
        ReqResult.scheduled (newRide st now a b c)) := by
    unfold requestRide
    rw [if_neg hcond]
  refine ⟨hreq, rfl, rfl, ?_, ?_, ?_⟩
  · intro r hr
    exact Nat.ne_of_lt (hids r hr)
  · rw [hreq]
    intro r hr
    rcases List.mem_append.mp hr with hmem | hmem
    · exact Nat.lt_succ_of_lt (hids r hmem)
    · rw [List.mem_singleton] at hmem
      subst hmem
      exact Nat.lt_succ_self _
  · intro now2 a2 b2 c2 st3 ride2 heq
    obtain ⟨hr2, -⟩ := requestRide_scheduled_inv _ now2 a2 b2 c2 st3 ride2 heq
    subst hr2
    rw [hreq]
    simp [newRide]

/-- Witness for C6 at a concrete valid request on the empty store. -/
theorem C6_create_fresh_witness :
    (isFalsy (some ("u1")) || isFalsy (some ("A")) || isFalsy (some ("B"))) =
      false ∧
    idsBelow initState ∧
    ((newRide initState 0 (some ("u1")) (some ("A")) (some ("B"))).status =
      RideStatus.searching ∧
    ∀ r ∈ initState.rides,
      r.id ≠ (newRide initState 0 (some ("u1")) (some ("A")) (some ("B"))).id) := by
  have hids : idsBelow initState := by
    intro r hr
    simp [initState] at hr
  have h := C6_create_fresh initState 0 (some ("u1")) (some ("A")) (some ("B"))
    (by decide) hids
  exact ⟨by decide, hids, h.2.1, h.2.2.2.1⟩

/-- C7: when the match completes for a ride owned by a rider, the
rideUpdate event is emitted to the room named by that rider's identity and
delivered to every channel currently joined under it; a channel that left
(disconnected) before completion receives nothing, and every receiving
channel receives the identical payload. -/
theorem C7_delivery (st : BackendState) (ride : Ride) (r1 r2 : ℚ)
    (d n : Nat) (reg : Registry) (c : Nat) :
    (completeMatch st ride r1 r2 d n).eventRoom = ride.riderId ∧
    (c ∈ channelsFor reg ride.riderId →
      (c, (completeMatch st ride r1 r2 d n).event) ∈
        emitRideUpdate reg (completeMatch st ride r1 r2 d n)) ∧
    (∀ p ∈ emitRideUpdate (leave reg c) (completeMatch st ride r1 r2 d n),
      p.1 ≠ c) ∧
    (∀ p ∈ emitRideUpdate reg (completeMatch st ride r1 r2 d n),
      p.2 = (completeMatch st ride r1 r2 d n).event) := by
  refine ⟨rfl, ?_, ?_, ?_⟩
  · intro hc
    exact List.mem_map_of_mem _ hc
  · intro p hp
    unfold emitRideUpdate at hp
    obtain ⟨ch, hch, rfl⟩ := List.mem_map.mp hp
    unfold channelsFor leave at hch
    obtain ⟨m, hm, rfl⟩ := List.mem_map.mp hch
    have h1 := (List.mem_filter.mp hm).1
    have h2 := (List.mem_filter.mp h1).2
    simpa using h2
  · intro p hp
    unfold emitRideUpdate at hp
    obtain ⟨ch, hch, rfl⟩ := List.mem_map.mp hp
    rfl

/-- Witness for C7: rider u3 has channels 1 and 2 joined; channel 1
receives the event, and after channel 1 disconnects no delivery reaches
it. -/
theorem C7_delivery_witness :
    (1 ∈ channelsFor regTwo rideSearching.riderId) ∧
    ((1, (completeMatch initState rideSearching 0 0 7 3000).event) ∈
      emitRideUpdate regTwo (completeMatch initState rideSearching 0 0 7 3000)) ∧
    (∀ p ∈ emitRideUpdate (leave regTwo 1)
        (completeMatch initState rideSearching 0 0 7 3000),
      p.1 ≠ 1) := by
  have h := C7_delivery initState rideSearching 0 0 7 3000 regTwo 1
  exact ⟨by decide, h.2.1 (by decide), h.2.2.1⟩

/-- C8: the ride-status query returns the full stored record when the
identifier is known and notFound (the 404 of line 336) when it is
unknown. -/
theorem C8_get_ride_status (st : BackendState) (rid : Nat) :
    ((∃ r ∈ st.rides, r.id = rid) →
      ∃ r, getRideStatus st rid = StatusResult.found r ∧
        r ∈ st.rides ∧ r.id = rid) ∧
    ((∀ r ∈ st.rides, r.id ≠ rid) →
      getRideStatus st rid = StatusResult.notFound) := by
  constructor
  · rintro ⟨r0, hr0, hid⟩
    have hsome : (st.rides.find? (fun r => r.id == rid)).isSome := by
      rw [List.find?_isSome]
      exact ⟨r0, hr0, by simp [hid]⟩
    obtain ⟨r, hfind⟩ := Option.isSome_iff_exists.mp hsome
    refine ⟨r, ?_, List.mem_of_find?_eq_some hfind, ?_⟩
    · unfold getRideStatus
      rw [hfind]
    · have hpred := List.find?_some hfind
      simpa using hpred
  · intro hnone
    have hfindnone : st.rides.find? (fun r => r.id == rid) = none := by
      rw [List.find?_eq_none]
      intro r hr
      simp [hnone r hr]
    unfold getRideStatus
    rw [hfindnone]

/-- Witness for C8: the store holding exactly rideMatched (identifier 1)
answers the query for 1 with the record and the query for 5 with
notFound. -/
theorem C8_get_ride_status_witness :
    (∃ r ∈ stOne.rides, r.id = 1) ∧
    (∃ r, getRideStatus stOne 1 = StatusResult.found r ∧
      r ∈ stOne.rides ∧ r.id = 1) ∧
    ((∀ r ∈ stOne.rides, r.id ≠ 5) ∧
      getRideStatus stOne 5 = StatusResult.notFound) := by
  have hknown : ∃ r ∈ stOne.rides, r.id = 1 :=
    ⟨rideMatched, by simp [stOne], rfl⟩
  have hunknown : ∀ r ∈ stOne.rides, r.id ≠ 5 := by
    intro r hr
    simp [stOne] at hr
    subst hr
    decide
  exact ⟨hknown, (C8_get_ride_status stOne 1).1 hknown,
    hunknown, (C8_get_ride_status stOne 5).2 hunknown⟩

/-- C9: every ride created by the request handler undergoes exactly one
status transition, from searching (at creation) to accepted (in the match
callback); neither of the two statuses the flow assigns is cancelled,
on_the_way, completed or pending, so no ride created through this flow
ever reaches a failure state. -/
theorem C9_single_transition (st : BackendState) (now : Nat)
    (a b c : Option String) (st2 : BackendState) (ride : Ride)
    (h : requestRide st now a b c = (st2, ReqResult.scheduled ride)) :
    ride.status = RideStatus.searching ∧
    (∀ r1 r2 d n,
      (completeMatch st2 ride r1 r2 d n).ride.status = RideStatus.accepted) ∧
    (∀ r1 r2 d n s,
      (s = ride.status ∨ s = (completeMatch st2 ride r1 r2 d n).ride.status) →
      s ≠ RideStatus.pending ∧ s ≠ RideStatus.cancelled ∧
      s ≠ RideStatus.on_the_way ∧ s ≠ RideStatus.completed) := by
  obtain ⟨hr, -⟩ := requestRide_scheduled_inv st now a b c st2 ride h
  subst hr
  refine ⟨rfl, fun r1 r2 d n => rfl, ?_⟩
  rintro r1 r2 d n s (hs | hs) <;> subst hs <;>
    refine ⟨?_, ?_, ?_, ?_⟩ <;> simp [newRide, completeMatch, applyMatch]

/-- Witness for C9: the concrete u9 request on the empty store. -/
theorem C9_single_transition_witness :
    requestRide initState 0 (some ("u9")) (some ("A")) (some ("B")) =
      (c9Run.1, ReqResult.scheduled c9Ride) ∧
    c9Ride.status = RideStatus.searching ∧
    (completeMatch c9Run.1 c9Ride 0 0 7 3000).ride.status =
      RideStatus.accepted := by
  have h := C9_single_transition initState 0 (some ("u9")) (some ("A"))
    (some ("B")) c9Run.1 c9Ride (by rfl)
  exact ⟨by rfl, h.1, h.2.1 0 0 7 3000⟩
